import Mathlib

/-!
Verification of the conversion engine of `converter.py`.

Shallow embedding conventions:
* Python floats are modelled as exact rationals (`ℚ`); the decimal literals of
  the unit tables are carried over verbatim as rational literals.
* Python dicts are modelled as association lists looked up with `List.lookup`
  (each table has pairwise distinct keys, so first-match lookup agrees with
  dict lookup).
* `str.lower()` is modelled by `py_lower`, ASCII lower-casing of every
  character (all unit aliases and all inputs the spec talks about are ASCII).
* A Python function that can `raise ValueError` is modelled as returning
  `Except ConvError`; the distinct error messages of the source are mapped to
  the constructors of `ConvError`.
-/

/-- Error kinds raised by the converter: unknown unit alias, cross-domain
auto conversion, and unknown conversion type (the latter only from
`show_all_conversions`). -/
inductive ConvError where
  | unknownUnit (unit : String)
  | crossDomain (fromType toType : String)
  | unknownConversionType (t : String)
deriving DecidableEq

/-- ASCII lower-casing of one character, as Python `str.lower` does for the
basic latin range (`Char.toLower` is exactly this function). -/
def py_lower (s : String) : String :=
  String.mk (s.data.map Char.toLower)

/-- Python `s.endswith(suffix)`. -/
def py_endswith (s suffix : String) : Bool :=
  suffix.data.isSuffixOf s.data

/-- Time conversion factors (to seconds), from `Converter.TIME_UNITS`. -/
def TIME_UNITS : List (String × ℚ) :=
  [("seconds", 1), ("sec", 1), ("s", 1),
   ("minutes", 60), ("min", 60), ("m", 60),
   ("hours", 3600), ("hr", 3600), ("h", 3600),
   ("days", 86400), ("d", 86400)]

/-- Weight conversion factors (to grams), from `Converter.WEIGHT_UNITS`. -/
def WEIGHT_UNITS : List (String × ℚ) :=
  [("grams", 1), ("gram", 1), ("g", 1),
   ("kilograms", 1000), ("kilogram", 1000), ("kg", 1000),
   ("pounds", 453.592), ("pound", 453.592), ("lb", 453.592), ("lbs", 453.592),
   ("ounces", 28.3495), ("ounce", 28.3495), ("oz", 28.3495)]

/-- Length conversion factors (to meters), from `Converter.LENGTH_UNITS`. -/
def LENGTH_UNITS : List (String × ℚ) :=
  [("millimeters", 0.001), ("millimeter", 0.001), ("mm", 0.001),
   ("centimeters", 0.01), ("centimeter", 0.01), ("cm", 0.01),
   ("meters", 1), ("meter", 1), ("m", 1),
   ("kilometers", 1000), ("kilometer", 1000), ("km", 1000),
   ("inches", 0.0254), ("inch", 0.0254), ("in", 0.0254),
   ("feet", 0.3048), ("foot", 0.3048), ("ft", 0.3048),
   ("yards", 0.9144), ("yard", 0.9144), ("yd", 0.9144),
   ("miles", 1609.34), ("mile", 1609.34), ("mi", 1609.34)]

/-- Baking/volume conversion factors (to milliliters), from
`Converter.BAKING_UNITS`. -/
def BAKING_UNITS : List (String × ℚ) :=
  [("milliliters", 1), ("milliliter", 1), ("ml", 1),
   ("liters", 1000), ("liter", 1000), ("l", 1000),
   ("cups", 236.588), ("cup", 236.588), ("c", 236.588),
   ("tablespoons", 14.7868), ("tablespoon", 14.7868), ("tbsp", 14.7868),
   ("teaspoons", 4.92892), ("teaspoon", 4.92892), ("tsp", 4.92892),
   ("fluid_ounces", 29.5735), ("fluid_ounce", 29.5735), ("fl_oz", 29.5735),
   ("pints", 473.176), ("pint", 473.176), ("pt", 473.176),
   ("quarts", 946.353), ("quart", 946.353), ("qt", 946.353),
   ("gallons", 3785.41), ("gallon", 3785.41), ("gal", 3785.41)]

/-- Common body of the four `convert_*` class methods: lower-case both unit
names, look each up in the table (raising `UnknownUnit` on a miss), then
multiply into the base unit and divide by the target scale. -/
def tableConvert (tbl : List (String × ℚ)) (value : ℚ)
    (from_unit to_unit : String) : Except ConvError ℚ :=
  match tbl.lookup (py_lower from_unit) with
  | none => Except.error (ConvError.unknownUnit (py_lower from_unit))
  | some fromScale =>
    match tbl.lookup (py_lower to_unit) with
    | none => Except.error (ConvError.unknownUnit (py_lower to_unit))
    | some toScale => Except.ok (value * fromScale / toScale)

/-- `Converter.convert_time`. -/
def convert_time (value : ℚ) (from_unit to_unit : String) : Except ConvError ℚ :=
  tableConvert TIME_UNITS value from_unit to_unit

/-- `Converter.convert_weight`. -/
def convert_weight (value : ℚ) (from_unit to_unit : String) : Except ConvError ℚ :=
  tableConvert WEIGHT_UNITS value from_unit to_unit

/-- `Converter.convert_length`. -/
def convert_length (value : ℚ) (from_unit to_unit : String) : Except ConvError ℚ :=
  tableConvert LENGTH_UNITS value from_unit to_unit

/-- `Converter.convert_baking`. -/
def convert_baking (value : ℚ) (from_unit to_unit : String) : Except ConvError ℚ :=
  tableConvert BAKING_UNITS value from_unit to_unit

/-- `Converter.detect_unit_type`: scan the four tables in the fixed source
order and name the first domain containing the lower-cased alias. -/
def detect_unit_type (unit : String) : Option String :=
  if (TIME_UNITS.lookup (py_lower unit)).isSome then some "time"
  else if (WEIGHT_UNITS.lookup (py_lower unit)).isSome then some "weight"
  else if (LENGTH_UNITS.lookup (py_lower unit)).isSome then some "length"
  else if (BAKING_UNITS.lookup (py_lower unit)).isSome then some "baking"
  else none

/-- `Converter.convert_auto`. The source ends in an `elif` chain over the four
domain names, which is exhaustive because `detect_unit_type` only ever returns
those four strings; the final branch is therefore written as a plain `else`. -/
def convert_auto (value : ℚ) (from_unit to_unit : String) : Except ConvError ℚ :=
  match detect_unit_type from_unit, detect_unit_type to_unit with
  | none, _ => Except.error (ConvError.unknownUnit from_unit)
  | some _, none => Except.error (ConvError.unknownUnit to_unit)
  | some fromType, some toType =>
    if fromType ≠ toType then Except.error (ConvError.crossDomain fromType toType)
    else if fromType = "time" then convert_time value from_unit to_unit
    else if fromType = "weight" then convert_weight value from_unit to_unit
    else if fromType = "length" then convert_length value from_unit to_unit
    else convert_baking value from_unit to_unit

/-- The four measurement domains, for stating per-domain theorems. -/
inductive Domain where
  | time
  | weight
  | length
  | baking
deriving DecidableEq

/-- The alias table of a domain. -/
def domainTable : Domain → List (String × ℚ)
  | Domain.time => TIME_UNITS
  | Domain.weight => WEIGHT_UNITS
  | Domain.length => LENGTH_UNITS
  | Domain.baking => BAKING_UNITS

/-- The name `detect_unit_type` uses for a domain. -/
def domainName : Domain → String
  | Domain.time => "time"
  | Domain.weight => "weight"
  | Domain.length => "length"
  | Domain.baking => "baking"

/-- The domain converter of a domain. -/
def domainConvert : Domain → ℚ → String → String → Except ConvError ℚ
  | Domain.time => convert_time
  | Domain.weight => convert_weight
  | Domain.length => convert_length
  | Domain.baking => convert_baking

/-- The fixed priority order in which `detect_unit_type` scans the domains. -/
def domainOrder : List Domain :=
  [Domain.time, Domain.weight, Domain.length, Domain.baking]

/-- Round to the nearest integer, ties to the even integer: the rounding mode
Python uses when formatting with a fixed number of decimal places. -/
def roundHalfEven (q : ℚ) : ℤ :=
  if q - ⌊q⌋ < 1/2 then ⌊q⌋
  else if 1/2 < q - ⌊q⌋ then ⌊q⌋ + 1
  else if ⌊q⌋ % 2 = 0 then ⌊q⌋ else ⌊q⌋ + 1

/-- Left-pad a digit string with zeros to the given length. -/
def padZeros (s : String) (len : ℕ) : String :=
  String.mk (List.replicate (len - s.length) '0') ++ s

/-- Insert a comma after every three characters of the (reversed) digit list;
the counter records how many digits of the current group are already out. -/
def groupDigitsAux : List Char → ℕ → List Char
  | [], _ => []
  | c :: cs, k =>
    if k = 3 then ',' :: c :: groupDigitsAux cs 1
    else c :: groupDigitsAux cs (k + 1)

/-- Thousands-separate a digit string, as the `,` option of a Python format
specifier does with the integer part. -/
def groupDigits (s : String) : String :=
  String.mk (groupDigitsAux s.data.reverse 0).reverse

/-- Build the fixed-point display string from the sign and the rounded
magnitude `a` (the numerator of the result scaled by `10 ^ nd`). -/
def formatFixedCore (comma : Bool) (nd : ℕ) (neg : Bool) (a : ℕ) : String :=
  let ip := a / 10 ^ nd
  let fp := a % 10 ^ nd
  let ipStr := if comma then groupDigits (toString ip) else toString ip
  let signStr := if neg then "-" else ""
  if nd = 0 then signStr ++ ipStr
  else signStr ++ ipStr ++ "." ++ padZeros (toString fp) nd

/-- Python fixed-point formatting `format(q, ",.ndf")` (with `comma` selecting
the thousands separator): round `q` to `nd` decimal places half-to-even and
print the digits, keeping the sign of the value. -/
def formatFixed (comma : Bool) (nd : ℕ) (q : ℚ) : String :=
  formatFixedCore comma nd (decide (q < 0)) (roundHalfEven (q * 10 ^ nd)).natAbs

/-- Python `s.rstrip(c)` for a single-character strip set. -/
def rstripChar (s : String) (c : Char) : String :=
  String.mk (s.data.reverse.dropWhile (fun x => x == c)).reverse

/-- The `.rstrip("0").rstrip(".")` post-processing of the source. -/
def stripTail (s : String) : String :=
  rstripChar (rstripChar s '0') '.'

/-- The result-formatting block inside `Converter.show_all_conversions`,
verbatim: buckets chosen by comparing the (signed) result against the
thresholds, trailing zeros and point stripped in every bucket but the first. -/
def format_result (result : ℚ) : String :=
  if result ≥ 1000000 then formatFixed true 0 result
  else if result ≥ 1000 then stripTail (formatFixed true 1 result)
  else if result ≥ 1 then stripTail (formatFixed false 3 result)
  else if result ≥ 0.001 then stripTail (formatFixed false 5 result)
  else stripTail (formatFixed false 6 result)

/-- Modelled from the spec: the same formatting block as the spec words it in
its formatting-policy table, which buckets by the magnitude of the absolute
value of the result. Written only to be compared against `format_result`. -/
def format_result_abs (result : ℚ) : String :=
  if |result| ≥ 1000000 then formatFixed true 0 result
  else if |result| ≥ 1000 then stripTail (formatFixed true 1 result)
  else if |result| ≥ 1 then stripTail (formatFixed false 3 result)
  else if |result| ≥ 0.001 then stripTail (formatFixed false 5 result)
  else stripTail (formatFixed false 6 result)

/-- The singular/plural handling inside `Converter.show_all_conversions`:
exactly when the computed result is `1.0`, strip a trailing `s` (except for
the three listed unit names) and special-case `feet`. -/
def display_unit (result : ℚ) (to_unit : String) : String :=
  if result = 1 then
    if py_endswith to_unit "s" = true ∧
        to_unit ∉ (["cups", "inches", "ounces"] : List String) then
      String.mk to_unit.data.dropLast
    else if to_unit = "feet" then "foot"
    else to_unit
  else to_unit

/-- The duplicate-target skip condition of the loop in
`Converter.show_all_conversions` (`from_unit` arrives already lower-cased). -/
def skipTarget (from_unit to_unit : String) : Bool :=
  py_lower to_unit == from_unit ||
  (from_unit == "s" && to_unit == "seconds") ||
  (from_unit == "seconds" && to_unit == "seconds") ||
  (from_unit == "ml" && to_unit == "milliliters") ||
  (from_unit == "milliliters" && to_unit == "milliliters") ||
  (from_unit == "g" && to_unit == "grams") ||
  (from_unit == "grams" && to_unit == "grams") ||
  (from_unit == "m" && to_unit == "meters") ||
  (from_unit == "meters" && to_unit == "meters")

/-- The per-type dispatch inside the loop of `show_all_conversions`. The final
`else` branch is unreachable because the caller already checked that the
conversion type is a key of `unit_maps`. -/
def convertByType (ct : String) (value : ℚ)
    (from_unit to_unit : String) : Except ConvError ℚ :=
  if ct = "time" ∨ ct = "t" then convert_time value from_unit to_unit
  else if ct = "weight" ∨ ct = "w" then convert_weight value from_unit to_unit
  else if ct = "length" ∨ ct = "l" then convert_length value from_unit to_unit
  else if ct = "baking" ∨ ct = "b" then convert_baking value from_unit to_unit
  else Except.error (ConvError.unknownConversionType ct)

/-- The `unit_maps` dict of `show_all_conversions`. -/
def unit_maps : List (String × List (String × ℚ)) :=
  [("time", TIME_UNITS), ("t", TIME_UNITS),
   ("weight", WEIGHT_UNITS), ("w", WEIGHT_UNITS),
   ("length", LENGTH_UNITS), ("l", LENGTH_UNITS),
   ("baking", BAKING_UNITS), ("b", BAKING_UNITS)]

/-- The `primary_units` dict of `show_all_conversions`. -/
def primary_units : List (String × List String) :=
  [("time", ["seconds", "minutes", "hours", "days"]),
   ("t", ["seconds", "minutes", "hours", "days"]),
   ("weight", ["grams", "kilograms", "pounds", "ounces"]),
   ("w", ["grams", "kilograms", "pounds", "ounces"]),
   ("length", ["millimeters", "centimeters", "meters", "kilometers",
               "inches", "feet", "yards", "miles"]),
   ("l", ["millimeters", "centimeters", "meters", "kilometers",
          "inches", "feet", "yards", "miles"]),
   ("baking", ["milliliters", "liters", "cups", "tablespoons", "teaspoons",
               "fluid_ounces", "pints", "quarts", "gallons"]),
   ("b", ["milliliters", "liters", "cups", "tablespoons", "teaspoons",
          "fluid_ounces", "pints", "quarts", "gallons"])]

/-- The target loop of `show_all_conversions`: one `(formatted, display unit)`
row per non-skipped target; a target whose conversion raises is silently
dropped (the `except ValueError: continue` handler). -/
def renderRows (ct : String) (value : ℚ) (from_unit : String) :
    List String → List (String × String)
  | [] => []
  | t :: ts =>
    if skipTarget from_unit t then renderRows ct value from_unit ts
    else
      match convertByType ct value from_unit t with
      | Except.error _ => renderRows ct value from_unit ts
      | Except.ok r => (format_result r, display_unit r t) :: renderRows ct value from_unit ts

/-- `Converter.show_all_conversions`, returning the printed rows instead of
writing them to standard output. The inner `match` on `primary_units` cannot
fail because `primary_units` has exactly the keys of `unit_maps`. -/
def show_all_conversions (conversion_type : String) (value : ℚ)
    (from_unit : String) : Except ConvError (List (String × String)) :=
  match unit_maps.lookup conversion_type with
  | none => Except.error (ConvError.unknownConversionType conversion_type)
  | some units =>
    if (units.lookup (py_lower from_unit)).isSome = false then
      Except.error (ConvError.unknownUnit (py_lower from_unit))
    else
      match primary_units.lookup conversion_type with
      | none => Except.error (ConvError.unknownConversionType conversion_type)
      | some targets =>
        Except.ok (renderRows conversion_type value (py_lower from_unit) targets)

/-! Helper lemmas. -/

theorem lookup_mem {β : Type} {ps : List (String × β)} {key : String}
    {val : β} (h : ps.lookup key = some val) : (key, val) ∈ ps := by
  induction ps with
  | cons q qs ih =>
    obtain ⟨a, b⟩ := q
    by_cases hk : key = a
    · subst hk
      simp [List.lookup] at h
      simp [h]
    · simp only [List.lookup, beq_false_of_ne hk] at h
      exact List.mem_cons_of_mem _ (ih h)
  | nil => exact absurd h (by simp [List.lookup])

theorem tableConvert_formula {tbl : List (String × ℚ)} (v : ℚ) {a b : String}
    {sa sb : ℚ} (ha : tbl.lookup (py_lower a) = some sa)
    (hb : tbl.lookup (py_lower b) = some sb) :
    tableConvert tbl v a b = Except.ok (v * sa / sb) := by
  simp only [tableConvert, ha, hb]

theorem tableConvert_err (tbl : List (String × ℚ)) (v : ℚ) (a b : String) :
    ((∃ u, tableConvert tbl v a b = Except.error (ConvError.unknownUnit u)) ↔
      tbl.lookup (py_lower a) = none ∨ tbl.lookup (py_lower b) = none) ∧
    (∀ e, tableConvert tbl v a b = Except.error e →
      ∃ u, e = ConvError.unknownUnit u) := by
  rcases h1 : tbl.lookup (py_lower a) with _ | sa <;>
    rcases h2 : tbl.lookup (py_lower b) with _ | sb <;>
      simp [tableConvert, h1, h2]

theorem domainConvert_eq (D : Domain) (v : ℚ) (a b : String) :
    domainConvert D v a b = tableConvert (domainTable D) v a b := by
  cases D <;> rfl

theorem domainTable_keys_lower (D : Domain) :
    ∀ p ∈ domainTable D, py_lower p.1 = p.1 := by
  cases D <;> decide

theorem domainTable_pos (D : Domain) :
    ∀ p ∈ domainTable D, (0 : ℚ) < p.2 := by
  cases D <;> intro p hp <;> fin_cases hp <;> norm_num

theorem roundHalfEven_lt {q : ℚ} (f : ℤ) (hf : ⌊q⌋ = f)
    (h : q - f < 1/2) : roundHalfEven q = f := by
  rw [roundHalfEven, hf, if_pos h]

theorem roundHalfEven_gt {q : ℚ} (f : ℤ) (hf : ⌊q⌋ = f)
    (h : 1/2 < q - f) : roundHalfEven q = f + 1 := by
  rw [roundHalfEven, hf, if_neg (by linarith), if_pos h]

theorem formatFixed_of_nonneg {q : ℚ} {m : ℤ} (comma : Bool) (nd : ℕ)
    (hq : ¬ q < 0) (hm : roundHalfEven (q * 10 ^ nd) = m) :
    formatFixed comma nd q = formatFixedCore comma nd false m.natAbs := by
  rw [formatFixed, hm, decide_eq_false hq]

theorem formatFixed_of_neg {q : ℚ} {m : ℤ} (comma : Bool) (nd : ℕ)
    (hq : q < 0) (hm : roundHalfEven (q * 10 ^ nd) = m) :
    formatFixed comma nd q = formatFixedCore comma nd true m.natAbs := by
  rw [formatFixed, hm, decide_eq_true hq]

theorem renderRows_nil (ct : String) (v : ℚ) (fu : String) :
    renderRows ct v fu [] = [] := rfl

theorem renderRows_skip {fu t : String} (ct : String) (v : ℚ) (ts : List String)
    (h : skipTarget fu t = true) :
    renderRows ct v fu (t :: ts) = renderRows ct v fu ts := by
  rw [renderRows, if_pos h]

theorem renderRows_ok {ct : String} {v : ℚ} {fu t : String} {r : ℚ}
    (ts : List String) (h : skipTarget fu t = false)
    (hc : convertByType ct v fu t = Except.ok r) :
    renderRows ct v fu (t :: ts) =
      (format_result r, display_unit r t) :: renderRows ct v fu ts := by
  rw [renderRows, if_neg (by simp [h]), hc]

theorem renderRows_length {ct : String} {v : ℚ} {fu : String} {ts : List String}
    (h : ∀ t ∈ ts, ∃ r, convertByType ct v fu t = Except.ok r) :
    (renderRows ct v fu ts).length =
      (ts.filter (fun t => !skipTarget fu t)).length := by
  induction ts with
  | nil => rfl
  | cons t ts ih =>
    have hts : ∀ x ∈ ts, ∃ r, convertByType ct v fu x = Except.ok r :=
      fun x hx => h x (List.mem_cons_of_mem _ hx)
    by_cases hs : skipTarget fu t
    · rw [renderRows_skip ct v ts hs, List.filter_cons,
        if_neg (by simp [hs]), ih hts]
    · obtain ⟨r, hr⟩ := h t (List.mem_cons_self _ _)
      rw [renderRows_ok ts (by simp [hs]) hr, List.filter_cons,
        if_pos (by simp [hs]), List.length_cons, List.length_cons, ih hts]

theorem lookup_isSome_of_eq {β : Type} {l : List (String × β)} {k : String}
    {v : β} (h : l.lookup k = some v) : (l.lookup k).isSome = true := by
  rw [h]; rfl

theorem tableConvert_ok_of_isSome {tbl : List (String × ℚ)}
    (hkeys : ∀ p ∈ tbl, py_lower p.1 = p.1) {fu t : String} (v : ℚ)
    (hf : (tbl.lookup (py_lower fu)).isSome = true)
    (ht : (tbl.lookup t).isSome = true)
    (htl : py_lower t = t) :
    ∃ r, tableConvert tbl v (py_lower fu) t = Except.ok r := by
  obtain ⟨sf, hsf⟩ := Option.isSome_iff_exists.mp hf
  obtain ⟨st, hst⟩ := Option.isSome_iff_exists.mp ht
  have hkey : py_lower (py_lower fu) = py_lower fu := hkeys _ (lookup_mem hsf)
  refine ⟨v * sf / st, ?_⟩
  rw [tableConvert_formula v (hkey ▸ hsf) (htl ▸ hst)]

/-! Claim theorems. -/

/-- C1: for every domain, every value, and all unit aliases whose
lower-casings are keys of the domain table, the domain converter returns
exactly `(v * scale[lower a]) / scale[lower b]`: it multiplies into the base
unit and divides by the scale of the target unit. -/
theorem convert_base_unit_formula (D : Domain) (v : ℚ) (a b : String)
    (sa sb : ℚ) (ha : (domainTable D).lookup (py_lower a) = some sa)
    (hb : (domainTable D).lookup (py_lower b) = some sb) :
    domainConvert D v a b = Except.ok (v * sa / sb) := by
  rw [domainConvert_eq, tableConvert_formula v ha hb]

/-- Witness for C1 at `convert_time 60 "s" "m"`. -/
theorem convert_base_unit_formula_witness :
    domainConvert Domain.time 60 "s" "m" = Except.ok (60 * 1 / 60) :=
  convert_base_unit_formula Domain.time 60 "s" "m" 1 60 rfl rfl

/-- C3: a domain converter fails with an `UnknownUnit` error exactly when the
lower-cased from-unit or to-unit is not a key of the domain table (the lookup
itself is an exact match on the lower-cased string), and `UnknownUnit` is the
only error kind a domain converter produces. -/
theorem convert_unknown_unit_iff (D : Domain) (v : ℚ) (a b : String) :
    ((∃ u, domainConvert D v a b = Except.error (ConvError.unknownUnit u)) ↔
      (domainTable D).lookup (py_lower a) = none ∨
        (domainTable D).lookup (py_lower b) = none) ∧
    (∀ e, domainConvert D v a b = Except.error e →
      ∃ u, e = ConvError.unknownUnit u) := by
  simp only [domainConvert_eq]
  exact tableConvert_err (domainTable D) v a b

/-- Witness for C3: `convert_time 1 "xyz" "s"` fails with `UnknownUnit`. -/
theorem convert_unknown_unit_iff_witness :
    ∃ u, domainConvert Domain.time 1 "xyz" "s" =
      Except.error (ConvError.unknownUnit u) :=
  (convert_unknown_unit_iff Domain.time 1 "xyz" "s").1.mpr (Or.inl rfl)

/-- C6: when two aliases of one domain carry equal scale factors, converting
any value between them returns exactly the value (identity round-trip). -/
theorem convert_identity_roundtrip (D : Domain) (v : ℚ) (a b : String)
    (sa sb : ℚ) (ha : (domainTable D).lookup (py_lower a) = some sa)
    (hb : (domainTable D).lookup (py_lower b) = some sb) (hs : sa = sb) :
    domainConvert D v a b = Except.ok v := by
  subst hs
  rw [domainConvert_eq, tableConvert_formula v ha hb]
  have hpos : 0 < sa := domainTable_pos D _ (lookup_mem hb)
  rw [mul_div_assoc, div_self hpos.ne', mul_one]

/-- Witness for C6 at `convert_weight 7 "kg" "kilograms"`. -/
theorem convert_identity_roundtrip_witness :
    domainConvert Domain.weight 7 "kg" "kilograms" = Except.ok 7 :=
  convert_identity_roundtrip Domain.weight 7 "kg" "kilograms" 1000 1000 rfl rfl rfl

/-- C4: `detect_unit_type` lower-cases its argument and returns the name of
the first domain, in the fixed order time, weight, length, baking, whose table
contains it (`none` exactly when no table does); in particular the alias "m",
present in both the time and the length table, resolves to time. -/
theorem detect_unit_type_priority :
    (∀ u : String, detect_unit_type u =
      (domainOrder.find?
        (fun D => ((domainTable D).lookup (py_lower u)).isSome)).map domainName) ∧
    detect_unit_type "m" = some "time" ∧
    (TIME_UNITS.lookup "m").isSome = true ∧
    (LENGTH_UNITS.lookup "m").isSome = true := by
  refine ⟨?_, rfl, rfl, rfl⟩
  intro u
  by_cases h1 : (TIME_UNITS.lookup (py_lower u)).isSome = true <;>
    by_cases h2 : (WEIGHT_UNITS.lookup (py_lower u)).isSome = true <;>
      by_cases h3 : (LENGTH_UNITS.lookup (py_lower u)).isSome = true <;>
        by_cases h4 : (BAKING_UNITS.lookup (py_lower u)).isSome = true <;>
          simp [detect_unit_type, domainOrder, domainTable, domainName,
            List.find?, Bool.not_eq_true, h1, h2, h3, h4]

/-- Only `UnknownUnit` errors can come out of the four-way dispatch at the end
of `convert_auto`, whatever string the detected type is. -/
theorem dispatch_err (ft : String) (v : ℚ) (a b : String) :
    ∀ e, (if ft = "time" then convert_time v a b
      else if ft = "weight" then convert_weight v a b
      else if ft = "length" then convert_length v a b
      else convert_baking v a b) = Except.error e →
      ∃ u, e = ConvError.unknownUnit u := by
  by_cases h1 : ft = "time"
  · simpa [h1] using (tableConvert_err TIME_UNITS v a b).2
  · by_cases h2 : ft = "weight"
    · simpa [h1, h2] using (tableConvert_err WEIGHT_UNITS v a b).2
    · by_cases h3 : ft = "length"
      · simpa [h1, h2, h3] using (tableConvert_err LENGTH_UNITS v a b).2
      · simpa [h1, h2, h3] using (tableConvert_err BAKING_UNITS v a b).2

/-- C2: when both units are detected in the same domain, `convert_auto` gives
exactly the result of that domain converter; when both are detected but in
different domains, it fails with `CrossDomainConversion`. -/
theorem convert_auto_same_and_cross (v : ℚ) (a b : String) :
    (∀ D : Domain, detect_unit_type a = some (domainName D) →
      detect_unit_type b = some (domainName D) →
      convert_auto v a b = domainConvert D v a b) ∧
    (∀ da db : String, detect_unit_type a = some da →
      detect_unit_type b = some db → da ≠ db →
      convert_auto v a b = Except.error (ConvError.crossDomain da db)) := by
  constructor
  · intro D ha hb
    cases D <;> simp [convert_auto, ha, hb, domainName, domainConvert]
  · intro da db ha hb hne
    simp [convert_auto, ha, hb, hne]

/-- Witness for C2: same-domain delegation at (60, "s", "minutes") and a
cross-domain failure at (10, "s", "kg"). -/
theorem convert_auto_same_and_cross_witness :
    convert_auto 60 "s" "minutes" = domainConvert Domain.time 60 "s" "minutes" ∧
    convert_auto 10 "s" "kg" = Except.error (ConvError.crossDomain "time" "weight") :=
  ⟨(convert_auto_same_and_cross 60 "s" "minutes").1 Domain.time rfl rfl,
   (convert_auto_same_and_cross 10 "s" "kg").2 "time" "weight" rfl rfl (by decide)⟩

/-- C10: in `convert_auto` an unknown from-unit wins over everything and is
reported under its original spelling, an unknown to-unit is reported next, and
a `CrossDomainConversion` error implies both units were detected, in distinct
domains — so the two error kinds are mutually exclusive. -/
theorem convert_auto_error_precedence (v : ℚ) (a b : String) :
    (detect_unit_type a = none →
      convert_auto v a b = Except.error (ConvError.unknownUnit a)) ∧
    (∀ da, detect_unit_type a = some da → detect_unit_type b = none →
      convert_auto v a b = Except.error (ConvError.unknownUnit b)) ∧
    (∀ da db, convert_auto v a b = Except.error (ConvError.crossDomain da db) →
      detect_unit_type a = some da ∧ detect_unit_type b = some db ∧ da ≠ db) := by
  refine ⟨fun ha => by simp [convert_auto, ha],
    fun da ha hb => by simp [convert_auto, ha, hb], ?_⟩
  intro da db h
  rcases ha : detect_unit_type a with _ | fa
  · simp [convert_auto, ha] at h
  · rcases hb : detect_unit_type b with _ | fb
    · simp [convert_auto, ha, hb] at h
    · by_cases hne : fa = fb
      · subst hne
        simp [convert_auto, ha, hb] at h
        obtain ⟨u, hu⟩ := dispatch_err fa v a b _ h
        simp at hu
      · simp [convert_auto, ha, hb, hne] at h
        obtain ⟨h1, h2⟩ := h
        subst h1
        subst h2
        exact ⟨rfl, rfl, hne⟩

/-- Witness for C10: unknown from-unit beats unknown to-unit, unknown to-unit
beats cross-domain, and a concrete cross-domain failure implies both detections. -/
theorem convert_auto_error_precedence_witness :
    convert_auto 1 "zzz" "qqq" = Except.error (ConvError.unknownUnit "zzz") ∧
    convert_auto 1 "s" "qqq" = Except.error (ConvError.unknownUnit "qqq") ∧
    (detect_unit_type "s" = some "time" ∧ detect_unit_type "kg" = some "weight" ∧
      "time" ≠ "weight") :=
  ⟨(convert_auto_error_precedence 1 "zzz" "qqq").1 rfl,
   (convert_auto_error_precedence 1 "s" "qqq").2.1 "time" rfl rfl,
   (convert_auto_error_precedence 1 "s" "kg").2.2 "time" "weight" rfl⟩

/-- C8: the displayed unit name is singularized exactly when the computed
result equals 1: a trailing "s" is stripped unless the name is one of cups,
inches, ounces; "feet" becomes "foot"; every other name — including the three
exceptions — is shown unchanged, and for a result different from 1 the name is
always shown unchanged. -/
theorem display_unit_pluralization (r : ℚ) (u : String) :
    (r ≠ 1 → display_unit r u = u) ∧
    (r = 1 →
      (u ∈ (["cups", "inches", "ounces"] : List String) → display_unit r u = u) ∧
      (py_endswith u "s" = true →
        u ∉ (["cups", "inches", "ounces"] : List String) →
        display_unit r u = String.mk u.data.dropLast) ∧
      (u = "feet" → display_unit r u = "foot") ∧
      (py_endswith u "s" = false → u ≠ "feet" → display_unit r u = u)) := by
  constructor
  · intro hr
    rw [display_unit, if_neg hr]
  · intro hr
    subst hr
    refine ⟨?_, ?_, ?_, ?_⟩
    · intro hu
      have hfeet : u ≠ "feet" := by
        simp only [List.mem_cons, List.not_mem_nil, or_false] at hu
        rcases hu with rfl | rfl | rfl <;> decide
      rw [display_unit, if_pos rfl, if_neg (by simp [hu]), if_neg hfeet]
    · intro hs hn
      rw [display_unit, if_pos rfl, if_pos ⟨hs, hn⟩]
    · intro hu
      subst hu
      rw [display_unit, if_pos rfl, if_neg (by decide), if_pos rfl]
    · intro hs hf
      rw [display_unit, if_pos rfl, if_neg (by simp [hs]), if_neg hf]

/-- Witness for C8 on the four behaviours: hours singularized, feet made foot,
cups kept, days kept for a result other than 1. -/
theorem display_unit_pluralization_witness :
    display_unit 1 "hours" = "hour" ∧ display_unit 1 "feet" = "foot" ∧
    display_unit 1 "cups" = "cups" ∧ display_unit 2 "days" = "days" := by
  refine ⟨?_, ?_, ?_, ?_⟩
  · exact (((display_unit_pluralization 1 "hours").2 rfl).2.1 (by decide)
      (by decide)).trans (by decide)
  · exact ((display_unit_pluralization 1 "feet").2 rfl).2.2.1 rfl
  · exact ((display_unit_pluralization 1 "cups").2 rfl).1 (by decide)
  · exact (display_unit_pluralization 2 "days").1 (by norm_num)

/-- C9: every name in a primary-unit list is a key of the alias table paired
with the same conversion type, so inside the loop of `show_all_conversions`
every non-skipped target converts successfully (the per-target `UnknownUnit`
handler is unreachable) and the table has exactly one row per non-skipped
target — no row is silently dropped. -/
theorem primary_units_always_known :
    (∀ p ∈ unit_maps, ∀ q ∈ primary_units, p.1 = q.1 →
      ∀ u ∈ q.2, (p.2.lookup u).isSome = true) ∧
    (∀ (ct : String) (tbl : List (String × ℚ)) (pl : List String) (v : ℚ)
      (fu : String), unit_maps.lookup ct = some tbl →
      primary_units.lookup ct = some pl →
      (tbl.lookup (py_lower fu)).isSome = true →
      (∀ t ∈ pl, ∃ r, convertByType ct v (py_lower fu) t = Except.ok r) ∧
      (renderRows ct v (py_lower fu) pl).length =
        (pl.filter (fun t => !skipTarget (py_lower fu) t)).length) := by
  have hpart1 : ∀ p ∈ unit_maps, ∀ q ∈ primary_units, p.1 = q.1 →
      ∀ u ∈ q.2, (p.2.lookup u).isSome = true := by decide
  have hkeys : ∀ p ∈ unit_maps, ∀ q ∈ p.2, py_lower q.1 = q.1 := by decide
  have hlowpl : ∀ q ∈ primary_units, ∀ t ∈ q.2, py_lower t = t := by decide
  have hdisp : ∀ (ct : String) (tbl : List (String × ℚ)), (ct, tbl) ∈ unit_maps →
      ∀ (v : ℚ) (a b : String), convertByType ct v a b = tableConvert tbl v a b := by
    intro ct tbl hmem
    simp only [unit_maps, List.mem_cons, List.not_mem_nil, or_false,
      Prod.mk.injEq] at hmem
    rcases hmem with h | h | h | h | h | h | h | h <;>
      obtain ⟨rfl, rfl⟩ := h <;> intro v a b <;> rfl
  refine ⟨hpart1, ?_⟩
  intro ct tbl pl v fu hm hp hf
  have hmm : (ct, tbl) ∈ unit_maps := lookup_mem hm
  have hpm : (ct, pl) ∈ primary_units := lookup_mem hp
  have hall : ∀ t ∈ pl, ∃ r, convertByType ct v (py_lower fu) t = Except.ok r := by
    intro t ht
    rw [hdisp ct tbl hmm v (py_lower fu) t]
    exact tableConvert_ok_of_isSome (hkeys (ct, tbl) hmm) v hf
      (hpart1 (ct, tbl) hmm (ct, pl) hpm rfl t ht) (hlowpl (ct, pl) hpm t ht)
  exact ⟨hall, renderRows_length hall⟩

/-- Witness for C9 at the time domain with value 60 and from-unit "d". -/
theorem primary_units_always_known_witness :
    (TIME_UNITS.lookup "days").isSome = true ∧
    ((∀ t ∈ ["seconds", "minutes", "hours", "days"],
        ∃ r, convertByType "time" 60 (py_lower "d") t = Except.ok r) ∧
      (renderRows "time" 60 (py_lower "d")
          ["seconds", "minutes", "hours", "days"]).length =
        (["seconds", "minutes", "hours", "days"].filter
          (fun t => !skipTarget (py_lower "d") t)).length) :=
  ⟨primary_units_always_known.1 ("time", TIME_UNITS) (List.mem_cons_self _ _)
      ("time", ["seconds", "minutes", "hours", "days"]) (List.mem_cons_self _ _)
      rfl "days" (by decide),
   primary_units_always_known.2 "time" TIME_UNITS
      ["seconds", "minutes", "hours", "days"] 60 "d" rfl rfl rfl⟩

/-- Evaluation of the full time table for value 60 from unit "d": the skip
rule matches none of the four targets (in particular not "days", since the
special-cased pairs do not include "d"/"days"), so four rows come out. -/
theorem show_all_time_60_d_table :
    show_all_conversions "time" 60 "d" =
      Except.ok [("5,184,000", "seconds"), ("86,400", "minutes"),
                 ("1,440", "hours"), ("60", "days")] := by
  have e0 : show_all_conversions "time" 60 "d" =
      Except.ok (renderRows "time" 60 "d" ["seconds", "minutes", "hours", "days"]) := rfl
  have c1 : convertByType "time" 60 "d" "seconds" = Except.ok (60 * 86400 / 1) := rfl
  have c2 : convertByType "time" 60 "d" "minutes" = Except.ok (60 * 86400 / 60) := rfl
  have c3 : convertByType "time" 60 "d" "hours" = Except.ok (60 * 86400 / 3600) := rfl
  have c4 : convertByType "time" 60 "d" "days" = Except.ok (60 * 86400 / 86400) := rfl
  have f1 : format_result (60 * 86400 / 1 : ℚ) = "5,184,000" := by
    unfold format_result
    rw [if_pos (by norm_num),
      formatFixed_of_nonneg true 0 (by norm_num)
        (roundHalfEven_lt 5184000 (by norm_num) (by norm_num))]
    decide
  have f2 : format_result (60 * 86400 / 60 : ℚ) = "86,400" := by
    unfold format_result
    rw [if_neg (by norm_num), if_pos (by norm_num),
      formatFixed_of_nonneg true 1 (by norm_num)
        (roundHalfEven_lt 864000 (by norm_num) (by norm_num))]
    decide
  have f3 : format_result (60 * 86400 / 3600 : ℚ) = "1,440" := by
    unfold format_result
    rw [if_neg (by norm_num), if_pos (by norm_num),
      formatFixed_of_nonneg true 1 (by norm_num)
        (roundHalfEven_lt 14400 (by norm_num) (by norm_num))]
    decide
  have f4 : format_result (60 * 86400 / 86400 : ℚ) = "60" := by
    unfold format_result
    rw [if_neg (by norm_num), if_neg (by norm_num), if_pos (by norm_num),
      formatFixed_of_nonneg false 3 (by norm_num)
        (roundHalfEven_lt 60000 (by norm_num) (by norm_num))]
    decide
  have d1 : display_unit (60 * 86400 / 1 : ℚ) "seconds" = "seconds" := by
    unfold display_unit
    rw [if_neg (by norm_num)]
  have d2 : display_unit (60 * 86400 / 60 : ℚ) "minutes" = "minutes" := by
    unfold display_unit
    rw [if_neg (by norm_num)]
  have d3 : display_unit (60 * 86400 / 3600 : ℚ) "hours" = "hours" := by
    unfold display_unit
    rw [if_neg (by norm_num)]
  have d4 : display_unit (60 * 86400 / 86400 : ℚ) "days" = "days" := by
    unfold display_unit
    rw [if_neg (by norm_num)]
  have s1 : skipTarget "d" "seconds" = false := rfl
  have s2 : skipTarget "d" "minutes" = false := rfl
  have s3 : skipTarget "d" "hours" = false := rfl
  have s4 : skipTarget "d" "days" = false := rfl
  rw [e0, renderRows_ok _ s1 c1, renderRows_ok _ s2 c2, renderRows_ok _ s3 c3,
    renderRows_ok _ s4 c4, renderRows_nil, f1, d1, f2, d2, f3, d3, f4, d4]

/-- C5 counterexample: at (time, 60, "d") it is not the case that the table
has the "1,440" hours row and no "days" row — a "days" row is produced,
because the skip rule compares strings and "d" is not special-cased against
"days". -/
theorem show_all_time_60_d_days_row :
    ¬ (∀ rows, show_all_conversions "time" 60 "d" = Except.ok rows →
        ("1,440", "hours") ∈ rows ∧ ∀ p ∈ rows, p.2 ≠ "days") := by
  intro h
  obtain ⟨-, hnone⟩ := h _ show_all_time_60_d_table
  exact hnone ("60", "days") (by decide) rfl

/-- C5 amended: renderTable(Time, 60, "d") produces the "hours" row formatted
"1,440" and additionally a "days" row formatted "60" (the duplicate-skip rule
only tests literal string equality plus the fixed s/g/m/ml special cases, so
"days" is not skipped when converting from "d"). -/
theorem show_all_time_60_d_rows :
    ∃ rows, show_all_conversions "time" 60 "d" = Except.ok rows ∧
      ("1,440", "hours") ∈ rows ∧ ("60", "days") ∈ rows :=
  ⟨_, show_all_time_60_d_table, by decide, by decide⟩

/-- The minutes result of renderTable(time, -2, "s") under the formatting of
the source: signed buckets put -1/30 in the final 6-decimal bucket. -/
theorem format_result_neg_value :
    format_result ((-2 : ℚ) * 1 / 60) = "-0.033333" := by
  unfold format_result
  rw [if_neg (by norm_num), if_neg (by norm_num), if_neg (by norm_num),
    if_neg (by norm_num),
    formatFixed_of_neg false 6 (by norm_num)
      (roundHalfEven_gt (-33334) (by norm_num) (by norm_num))]
  decide

/-- The same result under the formatting policy as the spec words it:
bucketing by the absolute value puts -1/30 in the 5-decimal bucket. -/
theorem format_result_abs_neg_value :
    format_result_abs ((-2 : ℚ) * 1 / 60) = "-0.03333" := by
  have habs : |(-2 : ℚ) * 1 / 60| = 1/30 := by
    rw [abs_of_nonpos (by norm_num)]
    norm_num
  unfold format_result_abs
  rw [habs, if_neg (by norm_num), if_neg (by norm_num), if_neg (by norm_num),
    if_pos (by norm_num),
    formatFixed_of_neg false 5 (by norm_num)
      (roundHalfEven_gt (-3334) (by norm_num) (by norm_num))]
  decide

/-- Evaluation of the full time table for value -2 from unit "s": the seconds
target is skipped, and every remaining result is negative, so each formats in
the final 6-decimal bucket. -/
theorem show_all_time_neg2_s_table :
    show_all_conversions "time" (-2) "s" =
      Except.ok [("-0.033333", "minutes"), ("-0.000556", "hours"),
                 ("-0.000023", "days")] := by
  have e0 : show_all_conversions "time" (-2) "s" =
      Except.ok (renderRows "time" (-2) "s" ["seconds", "minutes", "hours", "days"]) := rfl
  have c2 : convertByType "time" (-2) "s" "minutes" = Except.ok ((-2) * 1 / 60) := rfl
  have c3 : convertByType "time" (-2) "s" "hours" = Except.ok ((-2) * 1 / 3600) := rfl
  have c4 : convertByType "time" (-2) "s" "days" = Except.ok ((-2) * 1 / 86400) := rfl
  have s1 : skipTarget "s" "seconds" = true := rfl
  have s2 : skipTarget "s" "minutes" = false := rfl
  have s3 : skipTarget "s" "hours" = false := rfl
  have s4 : skipTarget "s" "days" = false := rfl
  have f3 : format_result ((-2 : ℚ) * 1 / 3600) = "-0.000556" := by
    unfold format_result
    rw [if_neg (by norm_num), if_neg (by norm_num), if_neg (by norm_num),
      if_neg (by norm_num),
      formatFixed_of_neg false 6 (by norm_num)
        (roundHalfEven_lt (-556) (by norm_num) (by norm_num))]
    decide
  have f4 : format_result ((-2 : ℚ) * 1 / 86400) = "-0.000023" := by
    unfold format_result
    rw [if_neg (by norm_num), if_neg (by norm_num), if_neg (by norm_num),
      if_neg (by norm_num),
      formatFixed_of_neg false 6 (by norm_num)
        (roundHalfEven_gt (-24) (by norm_num) (by norm_num))]
    decide
  have d2 : display_unit ((-2 : ℚ) * 1 / 60) "minutes" = "minutes" := by
    unfold display_unit
    rw [if_neg (by norm_num)]
  have d3 : display_unit ((-2 : ℚ) * 1 / 3600) "hours" = "hours" := by
    unfold display_unit
    rw [if_neg (by norm_num)]
  have d4 : display_unit ((-2 : ℚ) * 1 / 86400) "days" = "days" := by
    unfold display_unit
    rw [if_neg (by norm_num)]
  rw [e0, renderRows_skip _ _ _ s1, renderRows_ok _ s2 c2, renderRows_ok _ s3 c3,
    renderRows_ok _ s4 c4, renderRows_nil, format_result_neg_value, d2, f3, d3,
    f4, d4]

/-- C7 counterexample: on the (reachable) minutes result of
renderTable(time, -2, "s") the source formats with the signed bucket chain,
giving "-0.033333", while bucketing by the absolute value as the claim states
would give "-0.03333". -/
theorem format_bucket_abs_cex :
    format_result ((-2 : ℚ) * 1 / 60) ≠ format_result_abs ((-2 : ℚ) * 1 / 60) ∧
    (∃ rows, show_all_conversions "time" (-2) "s" = Except.ok rows ∧
      ("-0.033333", "minutes") ∈ rows) := by
  constructor
  · rw [format_result_neg_value, format_result_abs_neg_value]
    decide
  · exact ⟨_, show_all_time_neg2_s_table, by decide⟩

/-- C7 amended: the display string is chosen by comparing the signed result
against the thresholds, so the claimed policy (bucket by absolute value) holds
exactly for nonnegative results, while every negative result falls through to
the stripped 6-decimal bucket. -/
theorem format_bucket_signed (r : ℚ) :
    (0 ≤ r → format_result r = format_result_abs r) ∧
    (r < 0 → format_result r = stripTail (formatFixed false 6 r)) := by
  constructor
  · intro h
    rw [format_result, format_result_abs, abs_of_nonneg h]
  · intro h
    have h1 : ¬ (r ≥ 1000000) := by linarith
    have h2 : ¬ (r ≥ 1000) := by linarith
    have h3 : ¬ (r ≥ 1) := by linarith
    have h4 : ¬ (r ≥ 0.001) := by
      intro hc
      have : (0.001 : ℚ) = 1/1000 := by norm_num
      rw [this] at hc
      linarith
    rw [format_result, if_neg h1, if_neg h2, if_neg h3, if_neg h4]

/-- Witness for C7 amended, at results 1440 and -1/30. -/
theorem format_bucket_signed_witness :
    format_result 1440 = format_result_abs 1440 ∧
    format_result ((-1 : ℚ)/30) = stripTail (formatFixed false 6 ((-1 : ℚ)/30)) :=
  ⟨(format_bucket_signed 1440).1 (by norm_num),
   (format_bucket_signed ((-1 : ℚ)/30)).2 (by norm_num)⟩
